import Mathlib

/-!
# Verification of the offline layer of `todo-app-test`

Shallow embedding of the client-side offline layer: the IndexedDB-backed
outbox and its sync engine (`src/static/offline.js`, version 1 of the
database schema, and `src/新しいフォルダー/offline.js`, version 7), and the
service-worker cache proxies (`src/sw.js` cache v15,
`src/新しいフォルダー/sw.js` cache v23, and the `src/unnamed/part_003`
variant, cache v2).

Promises are modelled by their eventual outcome: an async function becomes a
pure function from its inputs (including an explicit model of what `fetch`
would return) to a result record that also carries the store state after the
call, the list of HTTP request bodies issued, the client contexts that were
posted a message, and whether an error was logged or the promise rejected.
-/

/-- A record queued in `new_tasks_outbox` or `new_templates_outbox`: the
auto-assigned key (`keyPath` `id`, `autoIncrement` true) plus the payload
the page supplied. -/
structure OutboxRecord where
  id : Nat
  payload : String
deriving DecidableEq

/-- A record queued in `scratchpad_outbox`: `{ tasks: tasks, timestamp: ... }`
plus the auto-assigned key. -/
structure ScratchItem where
  id : Nat
  tasks : List String
  timestamp : String
deriving DecidableEq

/-- A record queued in `completed_tasks_outbox`:
`{ subtaskId, isCompleted, timestamp }` plus the auto-assigned key. -/
structure CompletionRecord where
  id : Nat
  subtaskId : Nat
  isCompleted : Bool
  timestamp : String
deriving DecidableEq

/-- Outcome of one `fetch` call: a response with an HTTP status, or a
transport error (the promise rejected). -/
inductive FetchOutcome where
  | response (status : Nat)
  | transportError
deriving DecidableEq

/-- `response.ok` of the Fetch standard: status in the range 200-299; a
transport error has no response at all. -/
def FetchOutcome.isSuccess : FetchOutcome → Bool
  | .response status => 200 ≤ status && status < 300
  | .transportError => false

namespace V7

/-- State of the four object stores of `todo-offline-db` version 7
(`src/新しいフォルダー/offline.js`). -/
structure OutboxState where
  newTasks : List OutboxRecord
  scratchpadItems : List ScratchItem
  newTemplates : List OutboxRecord
  completedTasks : List CompletionRecord
deriving DecidableEq

/-- The JSON body `triggerManualSync` POSTs to `/api/sync`: the four
top-level arrays of the sync request. -/
structure SyncBody where
  new_tasks : List OutboxRecord
  scratchpad_tasks : List String
  new_templates : List OutboxRecord
  completed_tasks : List CompletionRecord
deriving DecidableEq

/-- The body built at lines 113-123 of `src/新しいフォルダー/offline.js`:
the three collections verbatim, and the scratchpad items flattened with
`scratchpadItems.flatMap(item => item.tasks)`. -/
def buildBody (s : OutboxState) : SyncBody :=
  { new_tasks := s.newTasks
    scratchpad_tasks := s.scratchpadItems.flatMap ScratchItem.tasks
    new_templates := s.newTemplates
    completed_tasks := s.completedTasks }

/-- The short-circuit test at line 109: all four `getAll` results have
length zero. -/
def OutboxState.allEmpty (s : OutboxState) : Bool :=
  s.newTasks.isEmpty && s.scratchpadItems.isEmpty &&
    s.newTemplates.isEmpty && s.completedTasks.isEmpty

/-- What one run of `triggerManualSync` did: the boolean it resolved with,
the store state after the run, the bodies POSTed to `/api/sync`, and whether
the catch block logged `Manual Sync failed`. -/
structure SyncAttempt where
  returned : Bool
  state : OutboxState
  requests : List SyncBody
  loggedError : Bool
deriving DecidableEq

/-- `triggerManualSync` of `src/新しいフォルダー/offline.js` lines 95-144.
`net` models the server: the `fetch` to `/api/sync` outcome for a given
body. If all four collections are empty it resolves `true` with no request;
otherwise it POSTs once and, on an ok response, clears all four stores and
resolves `true`; on `!response.ok` it throws `Server sync failed`, which the
surrounding catch turns into a logged error and a resolved `false`, leaving
every store as it was. A rejected `fetch` takes the same catch path. -/
def triggerManualSync (s : OutboxState) (net : SyncBody → FetchOutcome) : SyncAttempt :=
  if s.allEmpty then
    { returned := true, state := s, requests := [], loggedError := false }
  else
    let body := buildBody s
    if (net body).isSuccess then
      { returned := true
        state := { newTasks := [], scratchpadItems := [], newTemplates := [], completedTasks := [] }
        requests := [body]
        loggedError := false }
    else
      { returned := false, state := s, requests := [body], loggedError := true }

/-- What one run of the service-worker entry point `sendQueueToServer` did:
the inner manual-sync attempt, which client contexts were posted
a `SYNC_COMPLETED` message, the value its promise resolved with (`none`
models resolving `undefined`), and whether it rejected. -/
structure BgSyncRun where
  attempt : SyncAttempt
  broadcasts : List Nat
  resolvedValue : Option Bool
  rejected : Bool
deriving DecidableEq

/-- `sendQueueToServer` of `src/新しいフォルダー/offline.js` lines 146-157.
It awaits `triggerManualSync` discarding its boolean; since
`triggerManualSync` catches every error internally and resolves `false`
instead of rejecting, the `catch (error) { throw error }` here is
unreachable, so the run never rejects and always reaches the broadcast:
when `self.clients` exists, every client of
`matchAll` (type `window`, `includeUncontrolled` true) is posted one
`SYNC_COMPLETED` message, whatever the outcome of the attempt. The function has
no return statement, so it resolves `undefined`. -/
def sendQueueToServer (s : OutboxState) (net : SyncBody → FetchOutcome)
    (clientsAvailable : Bool) (clients : List Nat) : BgSyncRun :=
  { attempt := triggerManualSync s net
    broadcasts := if clientsAvailable then clients else []
    resolvedValue := none
    rejected := false }

end V7

namespace Static

/-- State of the two object stores of `todo-offline-db` version 1
(`src/static/offline.js`). -/
structure OutboxState where
  newTasks : List OutboxRecord
  scratchpadItems : List ScratchItem
deriving DecidableEq

/-- The JSON body `sendQueueToServer` POSTs to `/api/sync` in the static
variant: two top-level arrays. -/
structure SyncBody where
  new_tasks : List OutboxRecord
  scratchpad_tasks : List String
deriving DecidableEq

/-- The body built at lines 135-138 of `src/static/offline.js`: `new_tasks`
verbatim and `scratchpad_tasks` flattened with
`scratchpadItems.flatMap(item => item.tasks)` (line 124). -/
def buildBody (s : OutboxState) : SyncBody :=
  { new_tasks := s.newTasks
    scratchpad_tasks := s.scratchpadItems.flatMap ScratchItem.tasks }

/-- What one run of the static `sendQueueToServer` did: the store state
after, the bodies POSTed, the clients posted `SYNC_COMPLETED`, and whether
the catch block logged `Sync failed`. -/
structure SyncRun where
  state : OutboxState
  requests : List SyncBody
  broadcasts : List Nat
  loggedError : Bool
deriving DecidableEq

/-- `sendQueueToServer` of `src/static/offline.js` lines 111-169. It reads
both stores, flattens the scratchpad items, and returns early (no request)
when `newTasks` and the flattened `scratchpadTasks` are both empty.
Otherwise it POSTs once; on an ok response it clears both stores and posts
`SYNC_COMPLETED` to every client; on `!response.ok` or a rejected `fetch`
the catch block only logs `Sync failed` — no clear, no broadcast. The
function always resolves `undefined`. -/
def sendQueueToServer (s : OutboxState) (net : SyncBody → FetchOutcome)
    (clients : List Nat) : SyncRun :=
  let scratchpadTasks := s.scratchpadItems.flatMap ScratchItem.tasks
  if s.newTasks.isEmpty && scratchpadTasks.isEmpty then
    { state := s, requests := [], broadcasts := [], loggedError := false }
  else
    let body := buildBody s
    if (net body).isSuccess then
      { state := { newTasks := [], scratchpadItems := [] }
        requests := [body]
        broadcasts := clients
        loggedError := false }
    else
      { state := s, requests := [body], broadcasts := [], loggedError := true }

end Static

/-- An HTTP response as seen by the cache proxy: status and body.
`Response.ok` (status 200-299) is the check `src/sw.js` makes before
caching dynamically. -/
structure WebResponse where
  status : Nat
  body : String
deriving DecidableEq

def WebResponse.ok (r : WebResponse) : Bool := 200 ≤ r.status && r.status < 300

/-- Request methods the proxies distinguish: `GET` against everything else
(`POST`, `PUT`, ...). -/
inductive Method where
  | get
  | post
  | other
deriving DecidableEq

/-- `request.mode`: `navigate` (top-level navigation) or any other mode
(subresource, cors, ...), the distinction `src/新しいフォルダー/sw.js`
routes on. -/
inductive ReqMode where
  | navigate
  | subresource
deriving DecidableEq

/-- An intercepted request: method, URL and mode. -/
structure WebRequest where
  method : Method
  url : String
  mode : ReqMode
deriving DecidableEq

/-- A cache snapshot of the Cache Storage API: entries keyed by URL. The
Cache API only ever holds entries for `GET` requests (see `cachePut`). -/
abbrev Snapshot := List (String × WebResponse)

def snapLookup : Snapshot → String → Option WebResponse
  | [], _ => none
  | (u, r) :: rest, url => if u = url then some r else snapLookup rest url

def snapUpdate : Snapshot → String → WebResponse → Snapshot
  | [], url, resp => [(url, resp)]
  | (u, r) :: rest, url, resp =>
      if u = url then (u, resp) :: rest else (u, r) :: snapUpdate rest url resp

/-- `cache.match(request)` of the Cache Storage API: a cache never contains
an entry for a non-`GET` request, so `match` on one yields `undefined`;
for a `GET` it looks the URL up in the snapshot. -/
def cacheMatch (c : Snapshot) (req : WebRequest) : Option WebResponse :=
  if req.method = .get then snapLookup c req.url else none

/-- `cache.put(request, response)` of the Cache Storage API: for a non-`GET`
request `put` returns a promise rejected with a `TypeError` and stores
nothing (every `put` in these workers is fire-and-forget, so the rejection
is never observed); for a `GET` it stores the response under the URL. -/
def cachePut (c : Snapshot) (req : WebRequest) (resp : WebResponse) : Snapshot :=
  if req.method = .get then snapUpdate c req.url resp else c

/-- Where the response handed to the page came from. `browserDefault` means
the handler returned without calling `respondWith`, leaving the request to
ordinary browser network handling; `failed` means the page sees a
network error (the `respondWith` promise rejected or resolved `undefined`). -/
inductive Served where
  | fromCache (r : WebResponse)
  | fromNetwork (r : WebResponse)
  | browserDefault
  | failed
deriving DecidableEq

/-- Result of one fetch-event interception: what was served and the
snapshot contents afterwards. -/
structure FetchHandled where
  served : Served
  snapAfter : Snapshot
deriving DecidableEq

namespace SW15

/-- The fetch listener of `src/sw.js` lines 114-141 (cache
`todo-grid-cache-v15-full-with-calendar`). Non-`GET` requests return before
`respondWith` — the browser handles them normally. For a `GET`, cache-first:
a snapshot hit is returned with no network call; on a miss the request goes
to the network and, when the response exists and is `ok`, a clone is
`put` into the snapshot. `net` is the outcome `fetch(event.request)` would
have (`none` = the fetch promise rejected). -/
def handleFetch (snap : Snapshot) (req : WebRequest) (net : Option WebResponse) :
    FetchHandled :=
  if req.method ≠ .get then
    { served := .browserDefault, snapAfter := snap }
  else
    match cacheMatch snap req with
    | some cached => { served := .fromCache cached, snapAfter := snap }
    | none =>
      match net with
      | some resp =>
          { served := .fromNetwork resp
            snapAfter := if resp.ok then cachePut snap req resp else snap }
      | none => { served := .failed, snapAfter := snap }

end SW15

namespace SW23

/-- The fetch listener of `src/新しいフォルダー/sw.js` lines 50-76 (cache
`todo-grid-cache-v23`). Navigations are network-first: the network response
is `put` (unconditionally, no `ok` check) and returned; if the fetch
rejects, `catch` falls back to `cache.match`, and a miss there resolves
`respondWith` with `undefined` (a network error for the page). Everything
else is stale-while-revalidate: `cache.match` races a fetch whose response
is always `put`; the cached response is served when present, else the
network one. `cache.put` on a non-`GET` rejects un-awaited and stores
nothing (see `cachePut`). -/
def handleFetch (snap : Snapshot) (req : WebRequest) (net : Option WebResponse) :
    FetchHandled :=
  if req.mode = .navigate then
    match net with
    | some resp => { served := .fromNetwork resp, snapAfter := cachePut snap req resp }
    | none =>
      match cacheMatch snap req with
      | some cached => { served := .fromCache cached, snapAfter := snap }
      | none => { served := .failed, snapAfter := snap }
  else
    match cacheMatch snap req with
    | some cached =>
      match net with
      | some resp => { served := .fromCache cached, snapAfter := cachePut snap req resp }
      | none => { served := .fromCache cached, snapAfter := snap }
    | none =>
      match net with
      | some resp => { served := .fromNetwork resp, snapAfter := cachePut snap req resp }
      | none => { served := .failed, snapAfter := snap }

end SW23

/-- `needle` occurs as a contiguous run inside `haystack` — the model of
JavaScript `String.prototype.includes`. -/
def charsStartWith : List Char → List Char → Bool
  | [], _ => true
  | _ :: _, [] => false
  | a :: as, b :: bs => a = b && charsStartWith as bs

def charsContain (needle : List Char) : List Char → Bool
  | [] => charsStartWith needle []
  | c :: cs => charsStartWith needle (c :: cs) || charsContain needle cs

def strIncludes (haystack needle : String) : Bool :=
  charsContain needle.toList haystack.toList

namespace SW2

/-- The fetch listener of `src/unnamed/part_003` lines 18-40 (cache
`todo-grid-cache-v2`). A non-`GET` request, or any request whose URL
includes `/api/`, is answered with `respondWith(fetch(request))` — straight
to the network, the cache never consulted nor written. Everything else is
the same stale-while-revalidate flow as `SW23.handleFetch`. -/
def handleFetch (snap : Snapshot) (req : WebRequest) (net : Option WebResponse) :
    FetchHandled :=
  if req.method ≠ .get || strIncludes req.url ("/api/") then
    match net with
    | some resp => { served := .fromNetwork resp, snapAfter := snap }
    | none => { served := .failed, snapAfter := snap }
  else
    match cacheMatch snap req with
    | some cached =>
      match net with
      | some resp => { served := .fromCache cached, snapAfter := cachePut snap req resp }
      | none => { served := .fromCache cached, snapAfter := snap }
    | none =>
      match net with
      | some resp => { served := .fromNetwork resp, snapAfter := cachePut snap req resp }
      | none => { served := .failed, snapAfter := snap }

end SW2

/-- The moment at which an awaited value lets the caller continue, relative
to the IndexedDB write transaction it belongs to. -/
inductive ResolveTrigger where
  | onTxCommitted
  | immediate
deriving DecidableEq

/-- The JavaScript value an outbox insert function returns to its awaiting
caller: `promiseResolvingOn t` is a promise resolved by the trigger `t`;
`undefinedVal` is the value `undefined` (not a promise). -/
inductive JSValue where
  | undefinedVal
  | promiseResolvingOn (t : ResolveTrigger)
deriving DecidableEq

/-- `await v`: a promise defers the caller until its trigger fires; awaiting
any non-promise value (including `undefined`) continues in the very next
microtask, which runs before the `complete` event of the transaction can be
delivered — i.e. before the write is committed. -/
def awaitResolvesOn : JSValue → ResolveTrigger
  | .promiseResolvingOn t => t
  | .undefinedVal => .immediate

namespace V7

/-- `saveNewTaskToOutbox` (`src/新しいフォルダー/offline.js` lines 49-58)
returns `new Promise((resolve, reject) => { transaction.oncomplete = () =>
resolve(); transaction.onerror = ... })`: a promise resolved by the
`complete` event of the transaction, i.e. after the write committed. -/
def saveNewTaskToOutboxReturn : JSValue := .promiseResolvingOn .onTxCommitted

/-- `saveScratchpadToOutbox` (lines 60-69): same `oncomplete`-resolved
promise. -/
def saveScratchpadToOutboxReturn : JSValue := .promiseResolvingOn .onTxCommitted

/-- `saveTemplateToOutbox` (lines 71-80): same `oncomplete`-resolved
promise. -/
def saveTemplateToOutboxReturn : JSValue := .promiseResolvingOn .onTxCommitted

/-- `saveTaskCompletionToOutbox` (lines 83-92): same `oncomplete`-resolved
promise. -/
def saveTaskCompletionToOutboxReturn : JSValue := .promiseResolvingOn .onTxCommitted

end V7

namespace Static

/-- `saveTaskToOutbox` (`src/static/offline.js` lines 45-51) ends with
`return transaction.complete`. The transaction is a raw `IDBTransaction`
from `indexedDB.open` (line 16); the IndexedDB interface defines no
`complete` attribute — that promise exists only in the `idb` wrapper
library, which nothing in this repository loads — so the property access
yields `undefined`. -/
def saveTaskToOutboxReturn : JSValue := .undefinedVal

/-- `saveScratchpadToOutbox` (lines 54-60): the same
`return transaction.complete` on a raw `IDBTransaction`. -/
def saveScratchpadToOutboxReturn : JSValue := .undefinedVal

end Static

/-- `DB_NAME` shared by both variants. -/
def DB_NAME : String := "todo-offline-db"

def NEW_TASK_STORE : String := "new_tasks_outbox"

def SCRATCHPAD_STORE : String := "scratchpad_outbox"

def NEW_TEMPLATE_STORE : String := "new_templates_outbox"

def COMPLETED_TASK_STORE : String := "completed_tasks_outbox"

/-- An IndexedDB database as a list of object stores: name paired with the
records it holds (record contents untouched by upgrades, so their type is a
parameter). -/
abbrev Database (α : Type) := List (String × List α)

/-- `db.objectStoreNames.contains(name)`. -/
def containsStore (db : Database α) (name : String) : Bool :=
  db.any fun p => p.1 = name

/-- `db.createObjectStore` with `autoIncrement` true and `keyPath` `id`:
a new, empty store is added; existing stores are untouched. -/
def createObjectStore (db : Database α) (name : String) : Database α :=
  db ++ [(name, [])]

/-- The first store with this name, with its records. -/
def lookupStore : Database α → String → Option (List α)
  | [], _ => none
  | (n, recs) :: rest, name => if n = name then some recs else lookupStore rest name

namespace V7

/-- The `onupgradeneeded` handler of `openDB`
(`src/新しいフォルダー/offline.js` lines 21-36): for each of the four
schema stores in turn, create it only if `objectStoreNames` does not
already contain it. -/
def onupgradeneeded (db : Database α) : Database α :=
  let db1 := if containsStore db NEW_TASK_STORE then db
    else createObjectStore db NEW_TASK_STORE
  let db2 := if containsStore db1 SCRATCHPAD_STORE then db1
    else createObjectStore db1 SCRATCHPAD_STORE
  let db3 := if containsStore db2 NEW_TEMPLATE_STORE then db2
    else createObjectStore db2 NEW_TEMPLATE_STORE
  if containsStore db3 COMPLETED_TASK_STORE then db3
  else createObjectStore db3 COMPLETED_TASK_STORE

end V7

namespace Static

/-- The `onupgradeneeded` handler of `openDB` (`src/static/offline.js`
lines 28-38): create each of the two version-1 schema stores only if
`objectStoreNames` does not already contain it. -/
def onupgradeneeded (db : Database α) : Database α :=
  let db1 := if containsStore db NEW_TASK_STORE then db
    else createObjectStore db NEW_TASK_STORE
  if containsStore db1 SCRATCHPAD_STORE then db1
  else createObjectStore db1 SCRATCHPAD_STORE

/-- Page-context state the entry points of `src/static/offline.js` touch:
the two outbox stores and how many times `registerBackgroundSync` has been
invoked (an invocation only reaches `sync.register(SYNC_TAG)` when the
platform exposes `serviceWorker` and `SyncManager`; the count records the
requests made). -/
structure PageState where
  newTasksOutbox : List OutboxRecord
  scratchpadOutbox : List ScratchItem
  syncRegisterRequests : Nat
deriving DecidableEq

/-- What a page-side entry point did: the boolean it resolved with, the
state after, and how many network calls it made. -/
structure PageCallResult where
  value : Bool
  state : PageState
  networkCalls : Nat
deriving DecidableEq

/-- `addToSyncQueue(tasks)` (`src/static/offline.js` lines 65-79): when
`navigator.onLine` is false, `saveScratchpadToOutbox(tasks)` appends
`{ tasks, timestamp }` to the scratchpad store, `registerBackgroundSync()`
is invoked, and the promise resolves `true`; when the browser is online, it
only logs a placeholder message and resolves `false` — no insert, no
registration, no fetch anywhere in the function. -/
def addToSyncQueue (onLine : Bool) (st : PageState) (nextId : Nat)
    (tasks : List String) (timestamp : String) : PageCallResult :=
  if !onLine then
    { value := true
      state := { st with
        scratchpadOutbox := st.scratchpadOutbox ++ [⟨nextId, tasks, timestamp⟩]
        syncRegisterRequests := st.syncRegisterRequests + 1 }
      networkCalls := 0 }
  else
    { value := false, state := st, networkCalls := 0 }

/-- `addLocalTask(taskData)` (lines 82-94): when offline,
`saveTaskToOutbox(taskData)` appends to the new-task store,
`registerBackgroundSync()` is invoked, and the promise resolves `true`;
when online it resolves `false` with no insert, no registration and no
fetch. -/
def addLocalTask (onLine : Bool) (st : PageState) (nextId : Nat)
    (taskData : String) : PageCallResult :=
  if !onLine then
    { value := true
      state := { st with
        newTasksOutbox := st.newTasksOutbox ++ [⟨nextId, taskData⟩]
        syncRegisterRequests := st.syncRegisterRequests + 1 }
      networkCalls := 0 }
  else
    { value := false, state := st, networkCalls := 0 }

end Static

lemma lookupStore_append {α : Type} (db l : Database α) (name : String)
    (recs : List α) (h : lookupStore db name = some recs) :
    lookupStore (db ++ l) name = some recs := by
  induction db with
  | nil => simp [lookupStore] at h
  | cons hd tl ih =>
    obtain ⟨n, rs⟩ := hd
    simp only [lookupStore, List.cons_append] at h ⊢
    split at h
    · simp_all
    · rw [if_neg (by assumption)]
      exact ih h

lemma containsStore_append_left {α : Type} (db l : Database α) (name : String)
    (h : containsStore db name = true) : containsStore (db ++ l) name = true := by
  simp only [containsStore, List.any_append, Bool.or_eq_true]
  exact Or.inl h

lemma containsStore_createObjectStore_self {α : Type} (db : Database α) (n : String) :
    containsStore (createObjectStore db n) n = true := by
  simp [containsStore, createObjectStore, List.any_append]

lemma lookupStore_ensure {α : Type} (db : Database α) (n name : String)
    (recs : List α) (h : lookupStore db name = some recs) :
    lookupStore (if containsStore db n then db else createObjectStore db n) name
      = some recs := by
  by_cases hc : containsStore db n = true
  · simpa [hc] using h
  · simpa [hc, createObjectStore] using lookupStore_append db [(n, [])] name recs h

lemma containsStore_ensure_self {α : Type} (db : Database α) (n : String) :
    containsStore (if containsStore db n then db else createObjectStore db n) n
      = true := by
  by_cases hc : containsStore db n = true
  · simp [hc]
  · simp [hc, containsStore_createObjectStore_self]

lemma containsStore_ensure_mono {α : Type} (db : Database α) (n m : String)
    (h : containsStore db m = true) :
    containsStore (if containsStore db n then db else createObjectStore db n) m
      = true := by
  by_cases hc : containsStore db n = true
  · simpa [hc] using h
  · simpa [hc, createObjectStore] using containsStore_append_left db [(n, [])] m h

lemma ensure_of_contains {α : Type} (db : Database α) (n : String)
    (h : containsStore db n = true) :
    (if containsStore db n then db else createObjectStore db n) = db := by
  simp [h]

lemma upgrade_fixed_of_contains {α : Type} (db : Database α)
    (h1 : containsStore db NEW_TASK_STORE = true)
    (h2 : containsStore db SCRATCHPAD_STORE = true)
    (h3 : containsStore db NEW_TEMPLATE_STORE = true)
    (h4 : containsStore db COMPLETED_TASK_STORE = true) :
    V7.onupgradeneeded db = db := by
  simp [V7.onupgradeneeded, h1, h2, h3, h4]

lemma flatMap_eq_flatten_map {α β : Type} (f : α → List β) (l : List α) :
    l.flatMap f = (l.map f).flatten := by
  induction l with
  | nil => simp
  | cons h t ih => simp [ih]

/-- Claim C1: for every outbox state, if the HTTP request of the sync flush
to `/api/sync` yields a non-2xx response or a transport error, the flush
reports failure (a resolved `false` and a logged error in the v7
`triggerManualSync`; a logged error and no broadcast in the static
`sendQueueToServer`) and every collection after the attempt equals its
content before it — no clear, no insert, no modification. -/
theorem sync_failure_reports_and_preserves_store
    (s : V7.OutboxState) (t : Static.OutboxState)
    (net : V7.SyncBody → FetchOutcome) (nets : Static.SyncBody → FetchOutcome)
    (clients : List Nat)
    (hf : (net (V7.buildBody s)).isSuccess = false)
    (hg : (nets (Static.buildBody t)).isSuccess = false) :
    (V7.triggerManualSync s net).state = s ∧
    ((V7.triggerManualSync s net).requests ≠ [] →
      (V7.triggerManualSync s net).returned = false ∧
      (V7.triggerManualSync s net).loggedError = true) ∧
    (Static.sendQueueToServer t nets clients).state = t ∧
    ((Static.sendQueueToServer t nets clients).requests ≠ [] →
      (Static.sendQueueToServer t nets clients).loggedError = true ∧
      (Static.sendQueueToServer t nets clients).broadcasts = []) := by
  refine ⟨?_, ?_, ?_, ?_⟩
  · by_cases h1 : s.allEmpty = true
    · simp [V7.triggerManualSync, h1]
    · simp [V7.triggerManualSync, h1, hf]
  · intro hreq
    by_cases h1 : s.allEmpty = true
    · simp [V7.triggerManualSync, h1] at hreq
    · simp [V7.triggerManualSync, h1, hf]
  · by_cases h2 : (t.newTasks.isEmpty
        && (t.scratchpadItems.flatMap ScratchItem.tasks).isEmpty) = true
    · simp [Static.sendQueueToServer, h2]
    · simp [Static.sendQueueToServer, h2, hg]
  · intro hreq
    by_cases h2 : (t.newTasks.isEmpty
        && (t.scratchpadItems.flatMap ScratchItem.tasks).isEmpty) = true
    · simp [Static.sendQueueToServer, h2] at hreq
    · simp [Static.sendQueueToServer, h2, hg]

/-- Witness for C1 at a concrete failing server: one queued task in each
variant, a 500 response for v7, a transport error for static. -/
theorem sync_failure_reports_and_preserves_store_witness :
    ((fun _ => FetchOutcome.response 500 : V7.SyncBody → FetchOutcome)
        (V7.buildBody ⟨[⟨1, "a"⟩], [], [], []⟩)).isSuccess = false ∧
    ((fun _ => FetchOutcome.transportError : Static.SyncBody → FetchOutcome)
        (Static.buildBody ⟨[⟨1, "b"⟩], []⟩)).isSuccess = false ∧
    (V7.triggerManualSync ⟨[⟨1, "a"⟩], [], [], []⟩
        (fun _ => FetchOutcome.response 500)).state = ⟨[⟨1, "a"⟩], [], [], []⟩ :=
  ⟨by decide, by decide,
    (sync_failure_reports_and_preserves_store ⟨[⟨1, "a"⟩], [], [], []⟩ ⟨[⟨1, "b"⟩], []⟩
      (fun _ => FetchOutcome.response 500) (fun _ => FetchOutcome.transportError)
      [0] (by decide) (by decide)).1⟩

/-- Claim C2 (divergence): in `src/新しいフォルダー/offline.js`, with one
pending task and a server answering 500, the flush fails
(`triggerManualSync` resolves `false`) and yet `sendQueueToServer` still
posts a `SYNC_COMPLETED` message to every open client — the broadcast is
not restricted to successful syncs, because `triggerManualSync` swallows
its own errors and the `catch` in `sendQueueToServer` is unreachable. -/
theorem broadcast_sent_even_after_failed_flush :
    (V7.triggerManualSync ⟨[⟨1, "task"⟩], [], [], []⟩
        (fun _ => FetchOutcome.response 500)).returned = false ∧
    (V7.sendQueueToServer ⟨[⟨1, "task"⟩], [], [], []⟩
        (fun _ => FetchOutcome.response 500) true [0, 1]).broadcasts = [0, 1] ∧
    (V7.sendQueueToServer ⟨[⟨1, "task"⟩], [], [], []⟩
        (fun _ => FetchOutcome.response 500) true [0, 1]).attempt.state
      = ⟨[⟨1, "task"⟩], [], [], []⟩ := by
  decide

/-- Claim C3: with every outbox collection empty, both the manual and the
background-triggered flush of the v7 variant, and the static variant, issue
zero network requests and report success (resolved `true` for
`triggerManualSync`; a resolution without rejection or logged error for the
two `sendQueueToServer` variants). -/
theorem empty_outbox_sync_no_network
    (s : V7.OutboxState) (t : Static.OutboxState)
    (net : V7.SyncBody → FetchOutcome) (nets : Static.SyncBody → FetchOutcome)
    (ca : Bool) (cl cls : List Nat)
    (hs : s.newTasks = [] ∧ s.scratchpadItems = [] ∧
      s.newTemplates = [] ∧ s.completedTasks = [])
    (ht : t.newTasks = [] ∧ t.scratchpadItems = []) :
    (V7.triggerManualSync s net).requests = [] ∧
    (V7.triggerManualSync s net).returned = true ∧
    (V7.sendQueueToServer s net ca cl).attempt.requests = [] ∧
    (V7.sendQueueToServer s net ca cl).rejected = false ∧
    (Static.sendQueueToServer t nets cls).requests = [] ∧
    (Static.sendQueueToServer t nets cls).loggedError = false := by
  obtain ⟨h1, h2, h3, h4⟩ := hs
  obtain ⟨g1, g2⟩ := ht
  have hAll : s.allEmpty = true := by
    simp [V7.OutboxState.allEmpty, h1, h2, h3, h4]
  simp [V7.triggerManualSync, V7.sendQueueToServer, Static.sendQueueToServer,
    hAll, g1, g2]

/-- Witness for C3 at the two concrete empty states. -/
theorem empty_outbox_sync_no_network_witness :
    ((⟨[], [], [], []⟩ : V7.OutboxState).newTasks = [] ∧
      (⟨[], [], [], []⟩ : V7.OutboxState).scratchpadItems = [] ∧
      (⟨[], [], [], []⟩ : V7.OutboxState).newTemplates = [] ∧
      (⟨[], [], [], []⟩ : V7.OutboxState).completedTasks = []) ∧
    (V7.triggerManualSync ⟨[], [], [], []⟩
        (fun _ => FetchOutcome.response 200)).requests = [] :=
  ⟨by decide,
    (empty_outbox_sync_no_network ⟨[], [], [], []⟩ ⟨[], []⟩
      (fun _ => FetchOutcome.response 200) (fun _ => FetchOutcome.response 200)
      true [0] [0] (by decide) (by decide)).1⟩

/-- Claim C4: whenever the outbox holds scratchpad batches, the flush sends
exactly one request whose `scratchpad_tasks` array is the order-preserving
concatenation of the task lists of the batches — grouping and timestamps
are absent from the payload (its entries are the raw task strings); the
static variant flattens the same way. -/
theorem scratchpad_batches_flattened
    (s : V7.OutboxState) (net : V7.SyncBody → FetchOutcome)
    (h : s.scratchpadItems ≠ []) :
    (V7.triggerManualSync s net).requests = [V7.buildBody s] ∧
    (V7.buildBody s).scratchpad_tasks
      = (s.scratchpadItems.map ScratchItem.tasks).flatten ∧
    (∀ x ∈ (V7.buildBody s).scratchpad_tasks,
      ∃ item ∈ s.scratchpadItems, x ∈ item.tasks) ∧
    ∀ t : Static.OutboxState,
      (Static.buildBody t).scratchpad_tasks
        = (t.scratchpadItems.map ScratchItem.tasks).flatten := by
  have hAll : s.allEmpty = false := by
    obtain ⟨item, rest, hitems⟩ := List.exists_cons_of_ne_nil h
    simp [V7.OutboxState.allEmpty, hitems]
  refine ⟨?_, ?_, ?_, ?_⟩
  · by_cases hnet : (net (V7.buildBody s)).isSuccess = true
    · simp [V7.triggerManualSync, hAll, hnet]
    · simp [V7.triggerManualSync, hAll, hnet]
  · exact flatMap_eq_flatten_map ScratchItem.tasks s.scratchpadItems
  · intro x hx
    simp only [V7.buildBody, List.mem_flatMap] at hx
    exact hx
  · intro t
    exact flatMap_eq_flatten_map ScratchItem.tasks t.scratchpadItems

/-- Witness for C4 at the concrete batches of the spec example: tasks
`[A, B]` then `[C]` flatten to `[A, B, C]`. -/
theorem scratchpad_batches_flattened_witness :
    (⟨[], [⟨1, ["A", "B"], "t1"⟩, ⟨2, ["C"], "t2"⟩], [], []⟩
        : V7.OutboxState).scratchpadItems ≠ [] ∧
    (V7.buildBody ⟨[], [⟨1, ["A", "B"], "t1"⟩, ⟨2, ["C"], "t2"⟩], [], []⟩).scratchpad_tasks
      = ((⟨[], [⟨1, ["A", "B"], "t1"⟩, ⟨2, ["C"], "t2"⟩], [], []⟩
          : V7.OutboxState).scratchpadItems.map ScratchItem.tasks).flatten ∧
    (V7.buildBody ⟨[], [⟨1, ["A", "B"], "t1"⟩, ⟨2, ["C"], "t2"⟩], [], []⟩).scratchpad_tasks
      = ["A", "B", "C"] :=
  ⟨by decide,
    (scratchpad_batches_flattened
      ⟨[], [⟨1, ["A", "B"], "t1"⟩, ⟨2, ["C"], "t2"⟩], [], []⟩
      (fun _ => FetchOutcome.response 200) (by decide)).2.1,
    by decide⟩

/-- Claim C5: a non-GET request is never answered from a snapshot and never
written into one, in either proxy variant. The v15 worker returns before
`respondWith`, leaving the request to the ordinary browser network path;
the v23 worker intercepts it but `cache.match` cannot match a non-GET and
`cache.put` on one rejects without storing, so when the network yields a
response that response is served and the snapshot is unchanged. -/
theorem non_get_requests_bypass_cache
    (snap : Snapshot) (req : WebRequest) (net : Option WebResponse)
    (h : req.method ≠ Method.get) :
    (SW15.handleFetch snap req net).snapAfter = snap ∧
    (SW15.handleFetch snap req net).served = Served.browserDefault ∧
    (SW23.handleFetch snap req net).snapAfter = snap ∧
    (∀ r, (SW23.handleFetch snap req net).served ≠ Served.fromCache r) ∧
    (∀ resp, net = some resp →
      (SW23.handleFetch snap req net).served = Served.fromNetwork resp) := by
  have hm : cacheMatch snap req = none := by simp [cacheMatch, h]
  have hp : ∀ resp, cachePut snap req resp = snap := fun resp => by
    simp [cachePut, h]
  refine ⟨?_, ?_, ?_, ?_, ?_⟩
  · simp [SW15.handleFetch, h]
  · simp [SW15.handleFetch, h]
  · cases hmode : req.mode <;> cases net <;>
      simp [SW23.handleFetch, hmode, hm, hp]
  · intro r
    cases hmode : req.mode <;> cases net <;>
      simp [SW23.handleFetch, hmode, hm, hp]
  · intro resp hresp
    subst hresp
    cases hmode : req.mode <;> simp [SW23.handleFetch, hmode, hm, hp]

/-- Witness for C5 at a concrete POST to the sync endpoint against a
one-entry snapshot. -/
theorem non_get_requests_bypass_cache_witness :
    (⟨Method.post, "/api/sync", ReqMode.subresource⟩ : WebRequest).method
        ≠ Method.get ∧
    (SW15.handleFetch [("/todo", ⟨200, "shell"⟩)]
        ⟨Method.post, "/api/sync", ReqMode.subresource⟩
        (some ⟨200, "ok"⟩)).snapAfter = [("/todo", ⟨200, "shell"⟩)] :=
  ⟨by decide,
    (non_get_requests_bypass_cache [("/todo", ⟨200, "shell"⟩)]
      ⟨Method.post, "/api/sync", ReqMode.subresource⟩
      (some ⟨200, "ok"⟩) (by decide)).1⟩

/-- Claim C6 (counterexample): the v15 worker in `src/sw.js` applies no
path-based exclusion — a GET request to an API path, missing from the
snapshot and answered 200 by the network, is written into the snapshot, so
afterwards the snapshot does contain an entry for it. -/
theorem api_path_cached_by_v15_worker :
    (snapLookup
      (SW15.handleFetch []
        ⟨Method.get, "/api/data", ReqMode.subresource⟩
        (some ⟨200, "d"⟩)).snapAfter
      ("/api/data")) = some ⟨200, "d"⟩ := by
  decide

/-- Claim C6 as amended: only the `src/unnamed/part_003` proxy excludes API
paths — there, every request whose URL includes `/api/` is forwarded
straight to the network (the response served is the network one whenever
the network yields one), is never answered from a snapshot, and is never
written into one. The v15 worker of `src/sw.js` filters only on method, so
GET requests to API or auth paths can be stored (and its install manifest
even precaches `/login` and `/register`). -/
theorem api_paths_never_cached_in_part003
    (snap : Snapshot) (req : WebRequest) (net : Option WebResponse)
    (h : strIncludes req.url ("/api/") = true) :
    (SW2.handleFetch snap req net).snapAfter = snap ∧
    (∀ r, (SW2.handleFetch snap req net).served ≠ Served.fromCache r) ∧
    (∀ resp, net = some resp →
      (SW2.handleFetch snap req net).served = Served.fromNetwork resp) := by
  refine ⟨?_, ?_, ?_⟩
  · cases net <;> simp [SW2.handleFetch, h]
  · intro r
    cases net <;> simp [SW2.handleFetch, h]
  · intro resp hresp
    subst hresp
    simp [SW2.handleFetch, h]

/-- Witness for C6 as amended, at a concrete GET to `/api/sync` with a
populated snapshot. -/
theorem api_paths_never_cached_in_part003_witness :
    strIncludes (⟨Method.get, "/api/sync", ReqMode.subresource⟩
        : WebRequest).url ("/api/") = true ∧
    (SW2.handleFetch [("/todo", ⟨200, "shell"⟩)]
        ⟨Method.get, "/api/sync", ReqMode.subresource⟩
        (some ⟨200, "ok"⟩)).snapAfter = [("/todo", ⟨200, "shell"⟩)] :=
  ⟨by decide,
    (api_paths_never_cached_in_part003 [("/todo", ⟨200, "shell"⟩)]
      ⟨Method.get, "/api/sync", ReqMode.subresource⟩
      (some ⟨200, "ok"⟩) (by decide)).1⟩

/-- Claim C7 (divergence): the static-variant inserts return
`transaction.complete`, a property a raw `IDBTransaction` does not define,
so their promises resolve immediately — before the write transaction
commits — while the four v7 inserts return a promise resolved by the
`oncomplete` event and do wait for the commit. -/
theorem static_insert_resolves_before_commit :
    awaitResolvesOn Static.saveTaskToOutboxReturn = ResolveTrigger.immediate ∧
    awaitResolvesOn Static.saveScratchpadToOutboxReturn = ResolveTrigger.immediate ∧
    awaitResolvesOn V7.saveNewTaskToOutboxReturn = ResolveTrigger.onTxCommitted ∧
    awaitResolvesOn V7.saveScratchpadToOutboxReturn = ResolveTrigger.onTxCommitted ∧
    awaitResolvesOn V7.saveTemplateToOutboxReturn = ResolveTrigger.onTxCommitted ∧
    awaitResolvesOn V7.saveTaskCompletionToOutboxReturn = ResolveTrigger.onTxCommitted := by
  decide

/-- Claim C8 (divergence): at a failing flush (one pending task, transport
error), the background entry point `sendQueueToServer` neither rejects nor
resolves a boolean — it resolves `undefined` — so the platform is never
told to reschedule a retry; only the manual entry point
`triggerManualSync` resolves a boolean (`false` here). -/
theorem background_entry_never_rejects_on_failure :
    (V7.sendQueueToServer ⟨[⟨1, "t"⟩], [], [], []⟩
        (fun _ => FetchOutcome.transportError) true [0]).rejected = false ∧
    (V7.sendQueueToServer ⟨[⟨1, "t"⟩], [], [], []⟩
        (fun _ => FetchOutcome.transportError) true [0]).resolvedValue = none ∧
    (V7.triggerManualSync ⟨[⟨1, "t"⟩], [], [], []⟩
        (fun _ => FetchOutcome.transportError)).returned = false := by
  decide

/-- Claim C9: the v7 `onupgradeneeded` handler is additive and idempotent —
it creates each of the four schema stores exactly when absent, leaves every
pre-existing store with exactly its records, and running it again changes
nothing; the static (version 1) handler behaves identically on its two
stores. -/
theorem upgrade_preserves_existing_stores {α : Type}
    (db dbs : Database α) (name names : String) (recs recss : List α)
    (h : lookupStore db name = some recs)
    (hs : lookupStore dbs names = some recss) :
    lookupStore (V7.onupgradeneeded db) name = some recs ∧
    containsStore (V7.onupgradeneeded db) NEW_TASK_STORE = true ∧
    containsStore (V7.onupgradeneeded db) SCRATCHPAD_STORE = true ∧
    containsStore (V7.onupgradeneeded db) NEW_TEMPLATE_STORE = true ∧
    containsStore (V7.onupgradeneeded db) COMPLETED_TASK_STORE = true ∧
    V7.onupgradeneeded (V7.onupgradeneeded db) = V7.onupgradeneeded db ∧
    lookupStore (Static.onupgradeneeded dbs) names = some recss ∧
    containsStore (Static.onupgradeneeded dbs) NEW_TASK_STORE = true ∧
    containsStore (Static.onupgradeneeded dbs) SCRATCHPAD_STORE = true := by
  have hNT : containsStore (V7.onupgradeneeded db) NEW_TASK_STORE = true := by
    simp only [V7.onupgradeneeded]
    exact containsStore_ensure_mono _ _ _ (containsStore_ensure_mono _ _ _
      (containsStore_ensure_mono _ _ _ (containsStore_ensure_self _ _)))
  have hSP : containsStore (V7.onupgradeneeded db) SCRATCHPAD_STORE = true := by
    simp only [V7.onupgradeneeded]
    exact containsStore_ensure_mono _ _ _ (containsStore_ensure_mono _ _ _
      (containsStore_ensure_self _ _))
  have hTP : containsStore (V7.onupgradeneeded db) NEW_TEMPLATE_STORE = true := by
    simp only [V7.onupgradeneeded]
    exact containsStore_ensure_mono _ _ _ (containsStore_ensure_self _ _)
  have hCT : containsStore (V7.onupgradeneeded db) COMPLETED_TASK_STORE = true := by
    simp only [V7.onupgradeneeded]
    exact containsStore_ensure_self _ _
  refine ⟨?_, hNT, hSP, hTP, hCT, ?_, ?_, ?_, ?_⟩
  · simp only [V7.onupgradeneeded]
    exact lookupStore_ensure _ _ _ _ (lookupStore_ensure _ _ _ _
      (lookupStore_ensure _ _ _ _ (lookupStore_ensure _ _ _ _ h)))
  · exact upgrade_fixed_of_contains _ hNT hSP hTP hCT
  · simp only [Static.onupgradeneeded]
    exact lookupStore_ensure _ _ _ _ (lookupStore_ensure _ _ _ _ hs)
  · simp only [Static.onupgradeneeded]
    exact containsStore_ensure_mono _ _ _ (containsStore_ensure_self _ _)
  · simp only [Static.onupgradeneeded]
    exact containsStore_ensure_self _ _

/-- Witness for C9: a version-1 database holding one queued record in
`new_tasks_outbox`, reopened under the version-7 schema, keeps that record
and gains the three missing stores. -/
theorem upgrade_preserves_existing_stores_witness :
    lookupStore ([(NEW_TASK_STORE, [(1 : Nat)])] : Database Nat) NEW_TASK_STORE
        = some [1] ∧
    lookupStore (V7.onupgradeneeded ([(NEW_TASK_STORE, [(1 : Nat)])] : Database Nat))
        NEW_TASK_STORE = some [1] ∧
    containsStore (V7.onupgradeneeded ([(NEW_TASK_STORE, [(1 : Nat)])] : Database Nat))
        COMPLETED_TASK_STORE = true :=
  ⟨by decide,
    (upgrade_preserves_existing_stores
      [(NEW_TASK_STORE, [(1 : Nat)])] [(SCRATCHPAD_STORE, [(2 : Nat)])]
      NEW_TASK_STORE SCRATCHPAD_STORE [1] [2] (by decide) (by decide)).1,
    (upgrade_preserves_existing_stores
      [(NEW_TASK_STORE, [(1 : Nat)])] [(SCRATCHPAD_STORE, [(2 : Nat)])]
      NEW_TASK_STORE SCRATCHPAD_STORE [1] [2] (by decide) (by decide)).2.2.2.2.1⟩

/-- Claim C10: when the browser reports online, `addToSyncQueue` and
`addLocalTask` resolve `false` leaving the state untouched, with no
insert, no background-sync registration and no network call; when it
reports offline, each resolves `true`, appends exactly its record to the
matching store, requests background-sync registration once, and still makes
no network call. -/
theorem page_entry_points_queue_only_offline
    (st : Static.PageState) (nextId : Nat) (tasks : List String)
    (ts payload : String) :
    Static.addToSyncQueue true st nextId tasks ts
      = ⟨false, st, 0⟩ ∧
    Static.addLocalTask true st nextId payload
      = ⟨false, st, 0⟩ ∧
    (Static.addToSyncQueue false st nextId tasks ts).value = true ∧
    (Static.addToSyncQueue false st nextId tasks ts).state.scratchpadOutbox
      = st.scratchpadOutbox ++ [⟨nextId, tasks, ts⟩] ∧
    (Static.addToSyncQueue false st nextId tasks ts).state.newTasksOutbox
      = st.newTasksOutbox ∧
    (Static.addToSyncQueue false st nextId tasks ts).state.syncRegisterRequests
      = st.syncRegisterRequests + 1 ∧
    (Static.addToSyncQueue false st nextId tasks ts).networkCalls = 0 ∧
    (Static.addLocalTask false st nextId payload).value = true ∧
    (Static.addLocalTask false st nextId payload).state.newTasksOutbox
      = st.newTasksOutbox ++ [⟨nextId, payload⟩] ∧
    (Static.addLocalTask false st nextId payload).state.scratchpadOutbox
      = st.scratchpadOutbox ∧
    (Static.addLocalTask false st nextId payload).state.syncRegisterRequests
      = st.syncRegisterRequests + 1 ∧
    (Static.addLocalTask false st nextId payload).networkCalls = 0 := by
  simp [Static.addToSyncQueue, Static.addLocalTask]
